import Mathlib

/-!
Verification development for the ArknightsVote backend.

This file gives a shallow embedding, in Lean 4, of the parts of the
repository that the specification's claims are about:

* the Redis Lua scripts (`LUA_SCRIPT_BATCH_SCORE_UPDATE_SCRIPT` of
  `portable-service` and of `nats-service`,
  `LUA_SCRIPT_BATCH_IP_COUNTER_SCRIPT`), embedded as state transformers
  over an explicit aggregate-state record;
* the batch aggregator glue of `portable-service/src/proc.rs`
  (`calculate_pairwise_multipliers`, `batch_update_scores`);
* the `/ballot/save` handler of
  `portable-service/src/api/ballot/ballot_save.rs`;
* the candidate-pool evaluator
  `CandidatePoolPreset::generate_pool` of
  `share/src/models/candidate_pool_preset.rs`;
* the NATS consumer error taxonomy (`AppError::is_need_send_to_dlq`),
  the DLQ pipeline (`handle_failed_messages`) and the routing decisions
  of `save_score.rs`.

Modelling conventions used throughout:

* Rust `i32`/`i64` counters and Redis integers are modelled as `Int`
  (Redis `HINCRBY`/`INCR` operate on arbitrary-precision signed values
  within 64 bits; no claim exercises overflow).
* A Redis hash whose fields are built by concatenating decimal integer
  renderings (for example the field `win_id..":"..lose_id` of
  `op_matrix`) is keyed by the corresponding tuple of integers; the
  decimal encoding of such tuples into field strings is injective, so
  this keying is faithful.
* Lua `tonumber` applied to the decimal strings produced by Rust's
  `to_string` is modelled by `parseInt?` below, a parser for optional
  minus sign followed by decimal digits; `to_string` itself is modelled
  by `renderInt`, and `parseInt?_renderInt` proves the round trip.
* Redis Lua scripts abort on a runtime error but keep the effects of
  the calls already performed; the embeddings therefore return the
  state reached so far together with an optional error message.
-/

/-! ### Decimal rendering and parsing

`renderNat`/`renderInt` model Rust's `to_string` on integers;
`parseNatDigits?`/`parseInt?` model Lua's `tonumber` (and Rust's
`str::parse`) restricted to decimal integer numerals, which is the only
shape of numeric string exchanged between the Rust callers and the Lua
scripts. -/

/-- The ASCII digit character for a digit value `d < 10`. -/
def digitChar (d : Nat) : Char := Char.ofNat (48 + d)

/-- The digit value of an ASCII digit character, `none` for other characters. -/
def charDigit? (c : Char) : Option Nat :=
  if 48 ≤ c.toNat ∧ c.toNat ≤ 57 then some (c.toNat - 48) else none

/-- Fuel-indexed decimal rendering of a natural number, most significant digit
first.  Any `fuel > n` is enough. -/
def natCharsF : Nat → Nat → List Char
  | 0, _ => []
  | f + 1, n =>
    if n < 10 then [digitChar n]
    else natCharsF f (n / 10) ++ [digitChar (n % 10)]

/-- Decimal rendering of a natural number (the digits of `Nat::to_string`). -/
def natChars (n : Nat) : List Char := natCharsF (n + 1) n

/-- Left fold turning a digit list back into a value; `none` on a non-digit. -/
def digitsVal : Nat → List Char → Option Nat
  | acc, [] => some acc
  | acc, c :: cs =>
    match charDigit? c with
    | some d => digitsVal (acc * 10 + d) cs
    | none => none

/-- Parser for a nonempty all-digit string, the model of `str::parse::<u64>`
on the strings this system produces. -/
def parseNatDigits? (s : String) : Option Nat :=
  match s.data with
  | [] => none
  | cs => digitsVal 0 cs

/-- Decimal rendering of an integer: the model of Rust `i32/i64::to_string`. -/
def renderInt (i : Int) : String :=
  if i < 0 then String.mk ('-' :: natChars i.natAbs) else String.mk (natChars i.natAbs)

/-- Parser for an optional minus sign followed by decimal digits: the model of
Lua `tonumber` and Rust `str::parse::<i64>` on the integer numerals exchanged
in this system. -/
def parseInt? (s : String) : Option Int :=
  match s.data with
  | [] => none
  | c :: cs =>
    if c = '-' then
      match cs with
      | [] => none
      | _ => (digitsVal 0 cs).map (fun n : Nat => -(n : Int))
    else (digitsVal 0 (c :: cs)).map (fun n : Nat => (n : Int))

theorem charDigit?_digitChar {d : Nat} (h : d < 10) :
    charDigit? (digitChar d) = some d := by
  interval_cases d <;> decide

theorem digitsVal_append (acc : Nat) (xs ys : List Char) :
    digitsVal acc (xs ++ ys) =
      match digitsVal acc xs with
      | some a => digitsVal a ys
      | none => none := by
  induction xs generalizing acc with
  | nil => simp [digitsVal]
  | cons c cs ih =>
    simp only [List.cons_append, digitsVal]
    cases charDigit? c with
    | some d => exact ih (acc * 10 + d)
    | none => rfl

theorem digitsVal_natCharsF (fuel : Nat) :
    ∀ n, n < fuel → ∀ acc,
      digitsVal acc (natCharsF fuel n) =
        some (acc * 10 ^ (natCharsF fuel n).length + n) := by
  induction fuel with
  | zero => omega
  | succ f ih =>
    intro n h acc
    simp only [natCharsF]
    by_cases hn : n < 10
    · simp only [if_pos hn, digitsVal, charDigit?_digitChar hn, List.length_singleton]
      norm_num
    · have hdiv : n / 10 < f := by omega
      simp only [if_neg hn]
      rw [digitsVal_append, ih (n / 10) hdiv acc]
      have hm : n % 10 < 10 := by omega
      simp only [digitsVal, charDigit?_digitChar hm, List.length_append,
        List.length_singleton]
      rw [pow_succ]
      congr 1
      rw [← mul_assoc]
      generalize acc * 10 ^ (natCharsF f (n / 10)).length = A
      omega

theorem digitsVal_natChars (n : Nat) : digitsVal 0 (natChars n) = some n := by
  have := digitsVal_natCharsF (n + 1) n (Nat.lt_succ_self n) 0
  simpa [natChars] using this

theorem natCharsF_head_digit (fuel : Nat) :
    ∀ n, n < fuel → ∃ d cs, d < 10 ∧ natCharsF fuel n = digitChar d :: cs := by
  induction fuel with
  | zero => omega
  | succ f ih =>
    intro n h
    simp only [natCharsF]
    by_cases hn : n < 10
    · exact ⟨n, [], hn, by simp [hn]⟩
    · have hdiv : n / 10 < f := by omega
      obtain ⟨d, cs, hd, hcs⟩ := ih (n / 10) hdiv
      exact ⟨d, cs ++ [digitChar (n % 10)], hd, by simp [hn, hcs]⟩

theorem natChars_head_digit (n : Nat) :
    ∃ d cs, d < 10 ∧ natChars n = digitChar d :: cs :=
  natCharsF_head_digit (n + 1) n (Nat.lt_succ_self n)

theorem digitChar_ne_minus {d : Nat} (h : d < 10) : digitChar d ≠ '-' := by
  interval_cases d <;> decide

/-- Round trip: parsing the decimal rendering of an integer recovers it.
This connects the Rust side (which sends `to_string()` of ids and
multipliers) with the Lua side (which applies `tonumber`). -/
theorem parseInt?_renderInt (i : Int) : parseInt? (renderInt i) = some i := by
  obtain ⟨d, cs, hd, hcs⟩ := natChars_head_digit i.natAbs
  have hval := digitsVal_natChars i.natAbs
  rw [hcs] at hval
  by_cases hi : i < 0
  · simp only [renderInt, if_pos hi, parseInt?, hcs]
    simp only [if_true]
    rw [hval]
    simp only [Option.map_some']
    congr 1
    omega
  · simp only [renderInt, if_neg hi, parseInt?, hcs]
    rw [if_neg (digitChar_ne_minus hd), hval]
    simp only [Option.map_some']
    congr 1
    omega

/-! ### Aggregate state in the KV store

The per-topic aggregates kept in Redis (`{topic_id}:op_stats`,
`{topic_id}:op_matrix`, `{topic_id}:op_counter`,
`{topic_id}:valid_ballots_count`).  Hash fields that the scripts build by
concatenating decimal renderings of operator ids (`"{a}:win"`,
`"{a}:{b}"`) are keyed by the underlying integers, which is faithful
because the decimal encoding is injective. -/

/-- Which of the two `op_stats` fields of an operator is addressed
(`"{op}:win"` versus `"{op}:lose"`). -/
inductive StatSide where
  | win
  | lose
deriving DecidableEq

/-- The aggregate portion of the KV store, per topic id. -/
structure AggState where
  opStats : String → Int → StatSide → Int
  opMatrix : String → Int → Int → Int
  opCounter : String → Int → Int → Int
  valid_ballots_count : String → Int

/-- The all-zero store: no hash field set, no counter set (Redis returns 0
increments from an absent field/key). -/
def zeroAgg : AggState :=
  { opStats := fun _ _ _ => 0
    opMatrix := fun _ _ _ => 0
    opCounter := fun _ _ _ => 0
    valid_ballots_count := fun _ => 0 }

/-- `HINCRBY {t}:op_stats {o}:{side} δ`. -/
def hincrStats (st : AggState) (t : String) (o : Int) (side : StatSide) (δ : Int) : AggState :=
  { st with
    opStats := fun t' o' s' =>
      if t' = t ∧ o' = o ∧ s' = side then st.opStats t' o' s' + δ else st.opStats t' o' s' }

/-- `HINCRBY {t}:op_matrix {a}:{b} δ`. -/
def hincrMatrix (st : AggState) (t : String) (a b : Int) (δ : Int) : AggState :=
  { st with
    opMatrix := fun t' a' b' =>
      if t' = t ∧ a' = a ∧ b' = b then st.opMatrix t' a' b' + δ else st.opMatrix t' a' b' }

/-- `HINCRBY {t}:op_counter {a}:{b} δ`. -/
def hincrCounter (st : AggState) (t : String) (a b : Int) (δ : Int) : AggState :=
  { st with
    opCounter := fun t' a' b' =>
      if t' = t ∧ a' = a ∧ b' = b then st.opCounter t' a' b' + δ else st.opCounter t' a' b' }

/-- `INCR {t}:valid_ballots_count`. -/
def incrValid (st : AggState) (t : String) : AggState :=
  { st with
    valid_ballots_count := fun t' =>
      if t' = t then st.valid_ballots_count t' + 1 else st.valid_ballots_count t' }

/-! ### The portable-service batch score-update script

Embedding of `LUA_SCRIPT_BATCH_SCORE_UPDATE_SCRIPT` of
`portable-service/src/constants.rs` (lines 43-75).  The script walks
`ARGV` four entries at a time (`topic_id, win_id, lose_id, multiplier`),
after rejecting argument lists whose length is not a multiple of 4.
A Redis Lua script that raises an error mid-way keeps the effects already
performed, so the embedding returns the state reached so far together
with an optional error message. -/

/-- The body of one loop iteration of the portable batch score-update
script: the four `HINCRBY` calls and the `INCR` on the validated-ballot
counter, all keyed by `topic_id`. -/
def score_update_chunk (st : AggState) (t : String) (w l m : Int) : AggState :=
  incrValid
    (hincrMatrix (hincrMatrix (hincrStats (hincrStats st t w .win m) t l .lose m) t w l m)
      t l w (-m))
    t

/-- The loop of the portable batch score-update script.  `tonumber` failing
on `win_id`, `lose_id` or `multiplier` aborts the script (concatenation or
`HINCRBY` with a non-integer raises) before any call of that iteration. -/
def portable_score_update_go : List String → AggState → AggState × Option String
  | t :: w :: l :: m :: rest, st =>
    match parseInt? w, parseInt? l, parseInt? m with
    | some wi, some li, some mi => portable_score_update_go rest (score_update_chunk st t wi li mi)
    | _, _, _ => (st, some "script error: bad number in argument")
  | [], st => (st, none)
  | _, st => (st, some "script error: truncated argument list")

/-- `LUA_SCRIPT_BATCH_SCORE_UPDATE_SCRIPT` of portable-service: argument
count must be a multiple of 4, otherwise
`invalid argument count: must be multiple of 4` is returned and nothing
is written. -/
def portable_batch_score_update (argv : List String) (st : AggState) :
    AggState × Option String :=
  if argv.length % 4 ≠ 0 then
    (st, some "invalid argument count: must be multiple of 4")
  else portable_score_update_go argv st

/-! ### The nats-service batch score-update script

Embedding of `LUA_SCRIPT_BATCH_SCORE_UPDATE_SCRIPT` of
`nats-service/src/constants.rs` (lines 70-97).  This variant walks `ARGV`
three entries at a time (`win_id, lose_id, multiplier`), uses the global
un-namespaced keys `op_stats`, `op_matrix` and `total_valid_ballots`, and
reads the final `INCRBY` amount from `KEYS[1]`.  Its hash fields are
built from the raw argument strings, so they are kept as strings here. -/

/-- Global (un-namespaced) aggregate state touched by the nats-service
variant of the script. -/
structure NatsAggState where
  op_stats : String → Int
  op_matrix : String → Int
  total_valid_ballots : Int

/-- The all-zero global store. -/
def zeroNatsAgg : NatsAggState :=
  { op_stats := fun _ => 0, op_matrix := fun _ => 0, total_valid_ballots := 0 }

/-- `HINCRBY` on a hash modelled as a field-indexed function. -/
def hincrField (f : String → Int) (k : String) (δ : Int) : String → Int :=
  fun k' => if k' = k then f k' + δ else f k'

/-- The loop of the nats-service batch score-update script.  `multiplier`
is passed to `HINCRBY` as a raw string; a non-integer aborts at the first
`HINCRBY` of the iteration. -/
def nats_score_update_go : List String → NatsAggState → NatsAggState × Option String
  | w :: l :: m :: rest, st =>
    match parseInt? m with
    | some mi =>
      nats_score_update_go rest
        { st with
          op_stats := hincrField (hincrField st.op_stats (w ++ ":win") mi) (l ++ ":lose") mi
          op_matrix :=
            hincrField (hincrField st.op_matrix (w ++ ":" ++ l) mi) (l ++ ":" ++ w) (-mi) }
    | none => (st, some "script error: hash value is not an integer")
  | [], st => (st, none)
  | _, st => (st, some "script error: truncated argument list")

/-- `LUA_SCRIPT_BATCH_SCORE_UPDATE_SCRIPT` of nats-service: argument count
must be a multiple of 3; after the loop, `total_valid_ballots` is
incremented by the amount read from `KEYS[1]` (an error if `KEYS` is
empty or the amount is not an integer). -/
def nats_batch_score_update (keys argv : List String) (st : NatsAggState) :
    NatsAggState × Option String :=
  if argv.length % 3 ≠ 0 then
    (st, some "invalid argument count: must be multiple of 3")
  else
    match nats_score_update_go argv st with
    | (st', some e) => (st', some e)
    | (st', none) =>
      match keys with
      | [] => (st', some "script error: INCRBY amount is nil")
      | k :: _ =>
        match parseInt? k with
        | some v => ({ st' with total_valid_ballots := st'.total_valid_ballots + v }, none)
        | none => (st', some "script error: INCRBY amount is not an integer")

/-! ### The aggregator's score-update invocation (`proc.rs`)

`batch_update_scores` of `portable-service/src/proc.rs` (lines 580-621)
receives one entry per pairwise ballot, `((topic_id, win_id, lose_id),
multiplier)`, flattens it into the 4-tuple argument list of the score
script and the 3-tuple argument list of the 1v1 record script (ids
rendered with `to_string()`), and invokes both scripts. -/

/-- One score update handed to `batch_update_scores`:
`((topic_id, win_id, lose_id), multiplier)`. -/
structure ScoreUpdate where
  topic_id : String
  win_id : Int
  lose_id : Int
  multiplier : Int

/-- The smaller of the two ids, as computed in `batch_update_scores`
(`if win_id < lose_id { (win_id, lose_id) } else { (lose_id, win_id) }`). -/
def ScoreUpdate.min_id (u : ScoreUpdate) : Int :=
  if u.win_id < u.lose_id then u.win_id else u.lose_id

/-- The larger of the two ids, as computed in `batch_update_scores`. -/
def ScoreUpdate.max_id (u : ScoreUpdate) : Int :=
  if u.win_id < u.lose_id then u.lose_id else u.win_id

/-- The `args` vector built by `batch_update_scores`:
`topic_id, win_id, lose_id, multiplier` per update, ids and multiplier
rendered with `to_string()`. -/
def score_update_args : List ScoreUpdate → List String
  | [] => []
  | u :: us =>
    u.topic_id :: renderInt u.win_id :: renderInt u.lose_id :: renderInt u.multiplier ::
      score_update_args us

/-- The `args2` vector built by `batch_update_scores`:
`topic_id, min_id, max_id` per update. -/
def record_1v1_args : List ScoreUpdate → List String
  | [] => []
  | u :: us => u.topic_id :: renderInt u.min_id :: renderInt u.max_id :: record_1v1_args us

/-- Pure application of a list of score updates, chunk by chunk. -/
def applyScoreUpdates (us : List ScoreUpdate) (st : AggState) : AggState :=
  us.foldl (fun s u => score_update_chunk s u.topic_id u.win_id u.lose_id u.multiplier) st

theorem score_update_args_length (us : List ScoreUpdate) :
    (score_update_args us).length = 4 * us.length := by
  induction us with
  | nil => rfl
  | cons u us ih => simp [score_update_args, ih]; ring

/-- Running the portable script on the argument list built by
`batch_update_scores` performs exactly the listed updates and succeeds. -/
theorem portable_score_update_go_args (us : List ScoreUpdate) (st : AggState) :
    portable_score_update_go (score_update_args us) st = (applyScoreUpdates us st, none) := by
  induction us generalizing st with
  | nil => rfl
  | cons u us ih =>
    simp only [score_update_args, portable_score_update_go, parseInt?_renderInt,
      applyScoreUpdates, List.foldl_cons]
    exact ih _

theorem portable_batch_score_update_args (us : List ScoreUpdate) (st : AggState) :
    portable_batch_score_update (score_update_args us) st = (applyScoreUpdates us st, none) := by
  unfold portable_batch_score_update
  rw [score_update_args_length]
  simp [Nat.mul_mod_right, portable_score_update_go_args]

/-! ### Pointwise effect of one score-update chunk -/

theorem score_update_chunk_opStats (st : AggState) (t : String) (w l m : Int)
    (t' : String) (o : Int) (s : StatSide) :
    (score_update_chunk st t w l m).opStats t' o s =
      st.opStats t' o s + (if t' = t ∧ o = w ∧ s = .win then m else 0) +
        (if t' = t ∧ o = l ∧ s = .lose then m else 0) := by
  simp only [score_update_chunk, incrValid, hincrMatrix, hincrStats]
  split_ifs <;> omega

theorem score_update_chunk_opMatrix (st : AggState) (t : String) (w l m : Int)
    (t' : String) (a b : Int) :
    (score_update_chunk st t w l m).opMatrix t' a b =
      st.opMatrix t' a b + (if t' = t ∧ a = w ∧ b = l then m else 0) +
        (if t' = t ∧ a = l ∧ b = w then -m else 0) := by
  simp only [score_update_chunk, incrValid, hincrMatrix, hincrStats]
  split_ifs <;> omega

theorem score_update_chunk_opCounter (st : AggState) (t : String) (w l m : Int) :
    (score_update_chunk st t w l m).opCounter = st.opCounter := rfl

theorem score_update_chunk_valid (st : AggState) (t : String) (w l m : Int) (t' : String) :
    (score_update_chunk st t w l m).valid_ballots_count t' =
      st.valid_ballots_count t' + (if t' = t then 1 else 0) := by
  simp only [score_update_chunk, incrValid, hincrMatrix, hincrStats]
  split_ifs <;> omega

/-! ### Sums over an update list -/

/-- Total multiplier contributed to `op_stats[{o}:win]` of topic `t`. -/
def sumWinMult (t : String) (o : Int) : List ScoreUpdate → Int
  | [] => 0
  | u :: us => (if u.topic_id = t ∧ u.win_id = o then u.multiplier else 0) + sumWinMult t o us

/-- Total multiplier contributed to `op_stats[{o}:lose]` of topic `t`. -/
def sumLoseMult (t : String) (o : Int) : List ScoreUpdate → Int
  | [] => 0
  | u :: us => (if u.topic_id = t ∧ u.lose_id = o then u.multiplier else 0) + sumLoseMult t o us

/-- Total multiplier of updates of topic `t` in which `a` beat `b`. -/
def sumPairMult (t : String) (a b : Int) : List ScoreUpdate → Int
  | [] => 0
  | u :: us =>
    (if u.topic_id = t ∧ u.win_id = a ∧ u.lose_id = b then u.multiplier else 0) +
      sumPairMult t a b us

/-- Number of updates belonging to topic `t`. -/
def countTopic (t : String) : List ScoreUpdate → Int
  | [] => 0
  | u :: us => (if u.topic_id = t then 1 else 0) + countTopic t us

theorem applyScoreUpdates_opStats_win (us : List ScoreUpdate) (st : AggState)
    (t : String) (o : Int) :
    (applyScoreUpdates us st).opStats t o .win = st.opStats t o .win + sumWinMult t o us := by
  induction us generalizing st with
  | nil => simp [applyScoreUpdates, sumWinMult]
  | cons u us ih =>
    simp only [applyScoreUpdates, List.foldl_cons] at ih ⊢
    rw [ih, score_update_chunk_opStats, sumWinMult]
    have hT : (StatSide.win = StatSide.win) = True := by simp
    have hF : (StatSide.win = StatSide.lose) = False := by simp
    simp only [hT, hF, and_true, and_false, if_false]
    split_ifs <;> first | omega | tauto

theorem applyScoreUpdates_opStats_lose (us : List ScoreUpdate) (st : AggState)
    (t : String) (o : Int) :
    (applyScoreUpdates us st).opStats t o .lose = st.opStats t o .lose + sumLoseMult t o us := by
  induction us generalizing st with
  | nil => simp [applyScoreUpdates, sumLoseMult]
  | cons u us ih =>
    simp only [applyScoreUpdates, List.foldl_cons] at ih ⊢
    rw [ih, score_update_chunk_opStats, sumLoseMult]
    have hT : (StatSide.lose = StatSide.lose) = True := by simp
    have hF : (StatSide.lose = StatSide.win) = False := by simp
    simp only [hT, hF, and_true, and_false, if_false]
    split_ifs <;> first | omega | tauto

theorem applyScoreUpdates_opMatrix (us : List ScoreUpdate) (st : AggState)
    (t : String) (a b : Int) :
    (applyScoreUpdates us st).opMatrix t a b =
      st.opMatrix t a b + sumPairMult t a b us - sumPairMult t b a us := by
  induction us generalizing st with
  | nil => simp [applyScoreUpdates, sumPairMult]
  | cons u us ih =>
    simp only [applyScoreUpdates, List.foldl_cons] at ih ⊢
    rw [ih, score_update_chunk_opMatrix, sumPairMult, sumPairMult]
    split_ifs <;> first | omega | tauto

theorem applyScoreUpdates_valid (us : List ScoreUpdate) (st : AggState) (t : String) :
    (applyScoreUpdates us st).valid_ballots_count t =
      st.valid_ballots_count t + countTopic t us := by
  induction us generalizing st with
  | nil => simp [applyScoreUpdates, countTopic]
  | cons u us ih =>
    simp only [applyScoreUpdates, List.foldl_cons] at ih ⊢
    rw [ih, score_update_chunk_valid, countTopic]
    split_ifs <;> first | omega | tauto

theorem applyScoreUpdates_opCounter (us : List ScoreUpdate) (st : AggState) :
    (applyScoreUpdates us st).opCounter = st.opCounter := by
  induction us generalizing st with
  | nil => rfl
  | cons u us ih =>
    simp only [applyScoreUpdates, List.foldl_cons] at ih ⊢
    rw [ih, score_update_chunk_opCounter]

/-! ### Antisymmetry of `op_matrix` (claim C1) -/

/-- The antisymmetry invariant: for every topic and every pair of fields
`a:b` / `b:a` of its `op_matrix` hash, the two values cancel. -/
def MatrixAntisym (st : AggState) : Prop :=
  ∀ t a b, st.opMatrix t a b + st.opMatrix t b a = 0

theorem zeroAgg_matrixAntisym : MatrixAntisym zeroAgg := by
  intro t a b
  simp [zeroAgg]

theorem score_update_chunk_matrixAntisym {st : AggState} (h : MatrixAntisym st)
    (t : String) (w l m : Int) : MatrixAntisym (score_update_chunk st t w l m) := by
  intro t' a b
  have hab := h t' a b
  rw [score_update_chunk_opMatrix, score_update_chunk_opMatrix]
  split_ifs <;> first | omega | tauto

theorem portable_score_update_go_matrixAntisym (argv : List String) (st : AggState) :
    MatrixAntisym st → MatrixAntisym (portable_score_update_go argv st).1 := by
  induction argv, st using portable_score_update_go.induct with
  | case1 t w l m rest st wi li mi hm hl hw ih =>
    intro h
    simp only [portable_score_update_go, hw, hl, hm]
    exact ih (score_update_chunk_matrixAntisym h t wi li mi)
  | case2 t w l m rest st hno =>
    intro h
    simp only [portable_score_update_go]
    cases hw : parseInt? w <;> cases hl : parseInt? l <;> cases hm : parseInt? m <;>
      first
        | exact h
        | exact ((hno _ _ _ hw hl hm).elim)
  | case3 st =>
    intro h
    exact h
  | case4 argv st h1 h2 =>
    intro h
    match argv, h1, h2 with
    | [], _, h2 => exact (h2 rfl).elim
    | [a], _, _ => exact h
    | [a, b], _, _ => exact h
    | [a, b, c], _, _ => exact h
    | a :: b :: c :: d :: rest, h1, _ => exact (h1 a b c d rest rfl).elim

theorem portable_batch_score_update_matrixAntisym (argv : List String) {st : AggState}
    (h : MatrixAntisym st) : MatrixAntisym (portable_batch_score_update argv st).1 := by
  unfold portable_batch_score_update
  split_ifs with hlen
  · exact h
  · exact portable_score_update_go_matrixAntisym argv st h

/-- Aggregate states reachable from the all-zero store by invocations of
the portable batch score-update script, with arbitrary argument lists
(including invocations that are rejected or abort mid-way: those keep
the effects performed before the error, exactly as a Redis Lua error
does). -/
inductive ScoreReachable : AggState → Prop where
  | init : ScoreReachable zeroAgg
  | step (argv : List String) {st : AggState} :
      ScoreReachable st → ScoreReachable (portable_batch_score_update argv st).1

/-- Claim C1: for every topic and every aggregate state reachable from
the all-zero initial state by batch score updates, and for every pair of
distinct operators `a` and `b`,
`op_matrix[topic][a:b] + op_matrix[topic][b:a] = 0`: each processed
pairwise ballot adds the multiplier to the matrix field `win:lose` and
the negated multiplier to the field `lose:win`, so antisymmetry is
preserved by every flush. -/
theorem op_matrix_antisym_of_scoreReachable {st : AggState} (h : ScoreReachable st)
    (t : String) (a b : Int) (hab : a ≠ b) :
    st.opMatrix t a b + st.opMatrix t b a = 0 := by
  have hinv : MatrixAntisym st := by
    induction h with
    | init => exact zeroAgg_matrixAntisym
    | step argv _ ih => exact portable_batch_score_update_matrixAntisym argv ih
  exact hinv t a b

/-- Witness for C1: the state reached by one flush of a single update
`(topic "T", winner 1, loser 2, multiplier 5)` satisfies the antisymmetry
equation at the distinct pair `(1, 2)`. -/
theorem op_matrix_antisym_of_scoreReachable_witness :
    (portable_batch_score_update ["T", "1", "2", "5"] zeroAgg).1.opMatrix "T" 1 2 +
      (portable_batch_score_update ["T", "1", "2", "5"] zeroAgg).1.opMatrix "T" 2 1 = 0 :=
  op_matrix_antisym_of_scoreReachable
    (ScoreReachable.step ["T", "1", "2", "5"] ScoreReachable.init) "T" 1 2 (by decide)

/-! ### The batch 1v1 record script (claim C9)

`proc.rs` invokes `database.redis.batch_record_1v1_script` with the
flattened `args2` list; the Lua text of that script is not under `src/`
(only its invocation in `proc.rs` and its contract in the spec are), so
the script itself is modelled from the spec. -/

/-- Modelled from the spec: the Lua source of the batch 1v1 record script
is missing from `src/`; the spec's contract is
`RECORD_1V1_BATCH(ARGV=[topic_id, min_id, max_id]*)` performing
`HINCRBY {topic_id}:op_counter {min}:{max} 1` for each triple. -/
def batch_record_1v1_go : List String → AggState → AggState × Option String
  | t :: a :: b :: rest, st =>
    match parseInt? a, parseInt? b with
    | some ai, some bi => batch_record_1v1_go rest (hincrCounter st t ai bi 1)
    | _, _ => (st, some "script error: bad number in argument")
  | [], st => (st, none)
  | _, st => (st, some "script error: truncated argument list")

/-- Number of updates of topic `t` whose unordered pair, written as
`(min, max)` the way `batch_update_scores` orders it, is `(a, b)`. -/
def countPair (t : String) (a b : Int) : List ScoreUpdate → Int
  | [] => 0
  | u :: us =>
    (if t = u.topic_id ∧ a = u.min_id ∧ b = u.max_id then 1 else 0) + countPair t a b us

/-- Pure application of the 1v1 record triples of an update list. -/
def applyRecord1v1 (us : List ScoreUpdate) (st : AggState) : AggState :=
  us.foldl (fun s u => hincrCounter s u.topic_id u.min_id u.max_id 1) st

theorem batch_record_1v1_go_args (us : List ScoreUpdate) (st : AggState) :
    batch_record_1v1_go (record_1v1_args us) st = (applyRecord1v1 us st, none) := by
  induction us generalizing st with
  | nil => rfl
  | cons u us ih =>
    simp only [record_1v1_args, batch_record_1v1_go, parseInt?_renderInt,
      applyRecord1v1, List.foldl_cons]
    exact ih _

theorem applyRecord1v1_opCounter (us : List ScoreUpdate) (st : AggState)
    (t : String) (a b : Int) :
    (applyRecord1v1 us st).opCounter t a b = st.opCounter t a b + countPair t a b us := by
  induction us generalizing st with
  | nil => simp [applyRecord1v1, countPair]
  | cons u us ih =>
    simp only [applyRecord1v1, List.foldl_cons] at ih ⊢
    rw [ih, countPair]
    simp only [hincrCounter]
    split_ifs <;> first | omega | tauto

theorem applyRecord1v1_opStats (us : List ScoreUpdate) (st : AggState) :
    (applyRecord1v1 us st).opStats = st.opStats := by
  induction us generalizing st with
  | nil => rfl
  | cons u us ih =>
    simp only [applyRecord1v1, List.foldl_cons] at ih ⊢
    rw [ih]
    rfl

/-- Claim C9: for every flushed pairwise ballot with winner `w` and loser
`l`, the aggregator invokes the 1v1 record script with arguments
flattened as `[topic_id, min(w,l), max(w,l)]` (the `args2` list built by
`batch_update_scores`), the script increments the hash field `min:max`
of `{topic_id}:op_counter` by exactly one per triple and succeeds, and
starting from the all-zero store the value of `op_counter[t][a:b]` after
any sequence of flushes equals the number of scored ballots whose
unordered pair is `(a, b)`. -/
theorem op_counter_counts_unordered_pairs (us : List ScoreUpdate) (st : AggState)
    (t : String) (a b : Int) :
    record_1v1_args us =
        (us.map (fun u => [u.topic_id, renderInt u.min_id, renderInt u.max_id])).flatten ∧
      (batch_record_1v1_go (record_1v1_args us) st).2 = none ∧
      (batch_record_1v1_go (record_1v1_args us) st).1.opCounter t a b =
        st.opCounter t a b + countPair t a b us ∧
      ∀ batches : List (List ScoreUpdate),
        ((batches.foldl (fun s vs => (batch_record_1v1_go (record_1v1_args vs) s).1)
              zeroAgg).opCounter t a b) =
          (batches.map (fun vs => countPair t a b vs)).sum := by
  refine ⟨?_, ?_, ?_, ?_⟩
  · induction us with
    | nil => rfl
    | cons u us ih => simp [record_1v1_args, ih]
  · rw [batch_record_1v1_go_args]
  · rw [batch_record_1v1_go_args, applyRecord1v1_opCounter]
  · intro batches
    induction batches using List.reverseRecOn with
    | nil => simp [zeroAgg]
    | append_singleton batches vs ih =>
      simp only [List.foldl_append, List.foldl_cons, List.foldl_nil, List.map_append,
        List.sum_append, List.map_cons, List.map_nil, List.sum_cons, List.sum_nil]
      rw [batch_record_1v1_go_args, applyRecord1v1_opCounter, ih]
      omega

/-! ### Divergence of the two batch score-update script constants (claim C2)

The claim describes a script taking flattened 4-tuples
`[topic_id, win, lose, mult]`, rejecting argument lists whose length is
not a multiple of 4, and touching only keys namespaced by `topic_id`.
The portable-service constant does exactly that; the nats-service
constant of the same name still takes 3-tuples `[win, lose, mult]` on
the global keys `op_stats`/`op_matrix`/`total_valid_ballots` and
rejects argument lists whose length is not a multiple of 3 — yet its own
caller (`batch_update_scores` in `nats-service/src/consumer/save_score.rs`)
flattens 4-tuples and passes no `KEYS`. -/

/-- Claim C2: evaluated at the argument list `["T", "1", "2", "3"]` that a
flush of the single update `(topic "T", win 1, lose 2, mult 3)` produces,
the portable-service script succeeds and performs exactly the claimed
increments on `T`-namespaced keys (other topics untouched), and rejects
the 3-argument list `["T", "1", "2"]`; the nats-service constant of the
same name, invoked the way its caller invokes it (no `KEYS`, the same
4-tuple argument list), rejects the flush with
`invalid argument count: must be multiple of 3` and writes nothing. -/
theorem batch_score_update_script_divergence :
    (portable_batch_score_update ["T", "1", "2", "3"] zeroAgg).2 = none ∧
    (portable_batch_score_update ["T", "1", "2", "3"] zeroAgg).1.opStats "T" 1 .win = 3 ∧
    (portable_batch_score_update ["T", "1", "2", "3"] zeroAgg).1.opStats "T" 2 .lose = 3 ∧
    (portable_batch_score_update ["T", "1", "2", "3"] zeroAgg).1.opMatrix "T" 1 2 = 3 ∧
    (portable_batch_score_update ["T", "1", "2", "3"] zeroAgg).1.opMatrix "T" 2 1 = -3 ∧
    (portable_batch_score_update ["T", "1", "2", "3"] zeroAgg).1.valid_ballots_count "T" = 1 ∧
    (portable_batch_score_update ["T", "1", "2", "3"] zeroAgg).1.opStats "U" 1 .win = 0 ∧
    (portable_batch_score_update ["T", "1", "2", "3"] zeroAgg).1.valid_ballots_count "U" = 0 ∧
    portable_batch_score_update ["T", "1", "2"] zeroAgg =
      (zeroAgg, some "invalid argument count: must be multiple of 4") ∧
    nats_batch_score_update [] ["T", "1", "2", "3"] zeroNatsAgg =
      (zeroNatsAgg, some "invalid argument count: must be multiple of 3") := by
  refine ⟨rfl, ?_, ?_, ?_, ?_, ?_, ?_, ?_, rfl, rfl⟩ <;> decide

/-! ### IP-counter multipliers (claim C4)

Embedding of `LUA_SCRIPT_BATCH_IP_COUNTER_SCRIPT`
(`portable-service/src/constants.rs`, lines 16-41) and of
`calculate_pairwise_multipliers` (`portable-service/src/proc.rs`, lines
540-578).  The `EXPIRE` call sets a TTL and is a no-op in this timeless
model; the counter state is the map from key to current value. -/

/-- The `vote` section fields used by the multiplier step. -/
structure VoteConfig where
  base_multiplier : Int
  low_multiplier : Int
  max_ip_limit : Int
  ip_counter_expire_seconds : Int

/-- A pairwise ballot as the aggregator sees it (`PairwiseBallot` with its
`BallotInfo`). -/
structure PairwiseBallotM where
  topic_id : String
  ballot_id : String
  ip : String
  user_agent : String
  timestamp : Int
  win : Int
  lose : Int

/-- `LUA_SCRIPT_BATCH_IP_COUNTER_SCRIPT`: for each key in order, `INCR` it,
`EXPIRE` it, and report `base_multiplier` if
`max_ip_limit < 0 ∨ current ≤ max_ip_limit`, else `low_multiplier`.
Returns the updated counters and one multiplier per key occurrence. -/
def batch_ip_counter_script (cfg : VoteConfig) :
    List String → (String → Int) → (String → Int) × List Int
  | [], counters => (counters, [])
  | k :: rest, counters =>
    let current := counters k + 1
    let counters' := fun k' => if k' = k then current else counters k'
    let multiplier :=
      if cfg.max_ip_limit < 0 ∨ current ≤ cfg.max_ip_limit then cfg.base_multiplier
      else cfg.low_multiplier
    let next := batch_ip_counter_script cfg rest counters'
    (next.1, multiplier :: next.2)

/-- First-occurrence deduplication: the model of collecting the ballots'
IPs into a `HashSet<&str>` and iterating it.  (The Rust iteration order
of a `HashSet` is arbitrary; for the properties proved below only
batches with a single distinct IP are evaluated, where every order
coincides with this one.) -/
def dedupFirstGo (seen : List String) : List String → List String
  | [] => []
  | x :: xs => if x ∈ seen then dedupFirstGo seen xs else x :: dedupFirstGo (x :: seen) xs

/-- First-occurrence deduplication of a list of IPs. -/
def dedupFirst (l : List String) : List String := dedupFirstGo [] l

/-- `calculate_pairwise_multipliers` of `proc.rs`: builds one key per
ballot (`{topic_id}:ip_counter:{ip}`, duplicates included), runs the
batch IP-counter script over those keys, and zips the deduplicated IP
set against the per-key results to produce the `ip → multiplier` map.
Returns the updated counters and the map as an association list. -/
def calculate_pairwise_multipliers (ballots : List PairwiseBallotM) (cfg : VoteConfig)
    (counters : String → Int) : (String → Int) × List (String × Int) :=
  match ballots with
  | [] => (counters, [])
  | _ =>
    let ips_vec := dedupFirst (ballots.map (fun b => b.ip))
    let keys := ballots.map (fun b => b.topic_id ++ ":ip_counter:" ++ b.ip)
    let next := batch_ip_counter_script cfg keys counters
    (next.1, ips_vec.zip next.2)

/-- Multiplier assigned to one ballot when the score updates are built
(`ip_multipliers.get(ip).copied().unwrap_or(low_multiplier)` in
`process_pairwise_ballot_batch`). -/
def ballot_multiplier (m : List (String × Int)) (low : Int) (ip : String) : Int :=
  (m.lookup ip).getD low

/-- Total multiplier a batch contributes to the aggregates. -/
def batch_multiplier_sum (ballots : List PairwiseBallotM) (m : List (String × Int))
    (low : Int) : Int :=
  (ballots.map (fun b => ballot_multiplier m low b.ip)).sum

/-- A ballot of topic `"T"` from IP `"9.9.9.9"`, used as concrete input. -/
def oneIpBallot : PairwiseBallotM :=
  { topic_id := "T", ballot_id := "b", ip := "9.9.9.9", user_agent := "ua",
    timestamp := 0, win := 1, lose := 2 }

/-- Configuration `max_ip_limit = 1, base = 2, low = 1`. -/
def cfgLimit1 : VoteConfig :=
  { base_multiplier := 2, low_multiplier := 1, max_ip_limit := 1,
    ip_counter_expire_seconds := 60 }

/-- Configuration of spec scenario S2: `max_ip_limit = 10, base = 2, low = 1`. -/
def cfgLimit10 : VoteConfig :=
  { base_multiplier := 2, low_multiplier := 1, max_ip_limit := 10,
    ip_counter_expire_seconds := 60 }

/-- Processing one single-ballot flush after another, threading the
counter state, and accumulating the batch multiplier sums: the behaviour
of n separate `save` calls each flushed on its own. -/
def singleFlushSum (cfg : VoteConfig) : Nat → (String → Int) → Int
  | 0, _ => 0
  | n + 1, counters =>
    let r := calculate_pairwise_multipliers [oneIpBallot] cfg counters
    batch_multiplier_sum [oneIpBallot] r.2 cfg.low_multiplier + singleFlushSum cfg n r.1

/-- Claim C4 (code-bug evidence).  The claim says an IP whose running
counter exceeds `max_ip_limit` maps to `low_multiplier`, and that 12
save calls from one IP with `max_ip_limit = 10, base = 2, low = 1`
contribute a summed multiplier of 22.  Evaluating the code: with
`max_ip_limit = 1` and a single batch of two ballots from one IP the
counter reaches 2 > 1, yet the map sends the IP to `base_multiplier = 2`
(the result of the batch's first increment), because
`calculate_pairwise_multipliers` zips the deduplicated IP set against
the per-ballot-key results; a single batch of 12 one-IP ballots
contributes 24, not 22 — while 12 single-ballot flushes do give 22. -/
theorem calculate_pairwise_multipliers_first_increment_bug :
    (calculate_pairwise_multipliers [oneIpBallot, oneIpBallot] cfgLimit1
        (fun _ => 0)).2.lookup "9.9.9.9" = some 2 ∧
    batch_multiplier_sum (List.replicate 12 oneIpBallot)
        (calculate_pairwise_multipliers (List.replicate 12 oneIpBallot) cfgLimit10
          (fun _ => 0)).2 cfgLimit10.low_multiplier = 24 ∧
    singleFlushSum cfgLimit10 12 (fun _ => 0) = 22 := by
  refine ⟨?_, ?_, ?_⟩ <;> decide

/-! ### The `/ballot/save` handler (claims C5 and C10)

Embedding of `ballot_save_fn`
(`portable-service/src/api/ballot/ballot_save.rs`).  The ballot
challenge store (`state.ballot_cache_store`, a concurrent map from the
key `"{topic_id}:ballot:{ballot_id}"` to the pair `(left, right)`) is
modelled as a partial map; `remove` returns the stored value, if any,
and deletes the binding.  Time is passed in as `now` (the code calls
`Utc::now()`). -/

/-- `VotingTopicType` of `share/src/models/database.rs`. -/
inductive VotingTopicType where
  | Pairwise
  | Setwise
  | Groupwise
  | Plurality
deriving DecidableEq

/-- The fields of `VotingTopic` that `ballot_save_fn` consults. -/
structure VotingTopicM where
  id : String
  topic_type : VotingTopicType
  open_time : Int
  close_time : Int
  is_active : Bool

/-- `VotingTopic::is_topic_active`:
`is_active && open_time <= now && close_time >= now`. -/
def VotingTopicM.is_topic_active (t : VotingTopicM) (now : Int) : Bool :=
  t.is_active && decide (t.open_time ≤ now) && decide (t.close_time ≥ now)

/-- `BallotSaveRequest`, with the per-variant fields `ballot_save_fn`
reads (`topic_id`, `ballot_id`, and for the pairwise variant
`winner`/`loser`). -/
inductive BallotSaveRequest where
  | Pairwise (topic_id ballot_id : String) (winner loser : Int)
  | Setwise (topic_id ballot_id : String)
  | Groupwise (topic_id ballot_id : String)
  | Plurality (topic_id ballot_id : String)

/-- `BallotSaveRequest::topic_id`. -/
def BallotSaveRequest.topic_id : BallotSaveRequest → String
  | .Pairwise t _ _ _ => t
  | .Setwise t _ => t
  | .Groupwise t _ => t
  | .Plurality t _ => t

/-- `BallotSaveRequest::ballot_id`. -/
def BallotSaveRequest.ballot_id : BallotSaveRequest → String
  | .Pairwise _ b _ _ => b
  | .Setwise _ b => b
  | .Groupwise _ b => b
  | .Plurality _ b => b

/-- `VotingTopicType::matches_request`. -/
def VotingTopicType.matches_request : VotingTopicType → BallotSaveRequest → Bool
  | .Pairwise, .Pairwise _ _ _ _ => true
  | .Setwise, .Setwise _ _ => true
  | .Groupwise, .Groupwise _ _ => true
  | .Plurality, .Plurality _ _ => true
  | _, _ => false

/-- The `ApiMsg` variants reachable from `ballot_save_fn`. -/
inductive ApiMsgM where
  | OK
  | InternalError
  | TargetTopicNotFound
  | TargetTopicNotActive
  | RequestTopicTypeMismatch
  | BallotNotFound
  | BallotWinnerCannotBeLoser
  | InvalidBallotCode (detail : String)
deriving DecidableEq

/-- The observable outcome of one `/ballot/save` request: the response
envelope's `status` and `message`, the ballot store after the request,
and the pairwise ballot submitted to the aggregator, if any.  Aggregates
change only through submitted ballots, so `submitted = none` means the
aggregate counters are untouched by the request. -/
structure SaveOutcome where
  status : Int
  message : ApiMsgM
  store : String → Option (Int × Int)
  submitted : Option PairwiseBallotM

/-- `ballot_save_fn`.  `topic_result` is what
`state.topic_service.get_topic(req.topic_id())` produced; `now` is the
current time; `store` is the ballot challenge store; `realip`/`user_agent`
and `timestamp` feed the constructed ballot. -/
def ballot_save_fn (topic_result : Except Unit (Option VotingTopicM)) (now : Int)
    (store : String → Option (Int × Int)) (req : BallotSaveRequest)
    (realip user_agent : String) (timestamp : Int) : SaveOutcome :=
  match topic_result with
  | .error _ => ⟨404, .TargetTopicNotFound, store, none⟩
  | .ok none => ⟨404, .TargetTopicNotFound, store, none⟩
  | .ok (some topic) =>
    if topic.is_topic_active now && topic.topic_type.matches_request req then
      let ballot_key := req.topic_id ++ ":ballot:" ++ req.ballot_id
      match store ballot_key with
      | none => ⟨404, .BallotNotFound, fun k => if k = ballot_key then none else store k, none⟩
      | some store_value =>
        let store' := fun k => if k = ballot_key then none else store k
        match req with
        | .Pairwise topic_id ballot_id winner loser =>
          if winner = loser then
            ⟨400, .BallotWinnerCannotBeLoser, store', none⟩
          else
            let ballot_left := store_value.1
            let ballot_right := store_value.2
            if ¬ ((winner = ballot_left ∨ winner = ballot_right) ∧
                (loser = ballot_left ∨ loser = ballot_right)) then
              ⟨400, .InvalidBallotCode "invalid winner or loser id", store', none⟩
            else
              ⟨0, .OK, store',
                some { topic_id := topic_id, ballot_id := ballot_id, ip := realip,
                       user_agent := user_agent, timestamp := timestamp,
                       win := winner, lose := loser }⟩
        | _ => ⟨400, .InternalError, store', none⟩
    else if ¬ topic.topic_type.matches_request req then
      ⟨500, .RequestTopicTypeMismatch, store, none⟩
    else if ¬ topic.is_topic_active now then
      ⟨500, .TargetTopicNotActive, store, none⟩
    else ⟨500, .InternalError, store, none⟩

/-- Claim C5: on an active pairwise topic, a `/ballot/save` request whose
challenge record is absent yields `404 BallotNotFound`; one whose winner
equals its loser yields `400 BallotWinnerCannotBeLoser`; one whose
`{winner, loser}` is not a subset of the stored `{left, right}` yields
`400 InvalidBallotCode`; and in each of these error cases no ballot is
submitted to the aggregator, so the aggregate counters are unchanged. -/
theorem ballot_save_error_cases (topic : VotingTopicM) (now : Int)
    (store : String → Option (Int × Int)) (tid bid : String) (winner loser : Int)
    (realip ua : String) (ts : Int)
    (hactive : topic.is_topic_active now = true)
    (htype : topic.topic_type = .Pairwise) :
    (store (tid ++ ":ballot:" ++ bid) = none →
      (ballot_save_fn (.ok (some topic)) now store (.Pairwise tid bid winner loser)
          realip ua ts).status = 404 ∧
      (ballot_save_fn (.ok (some topic)) now store (.Pairwise tid bid winner loser)
          realip ua ts).message = .BallotNotFound ∧
      (ballot_save_fn (.ok (some topic)) now store (.Pairwise tid bid winner loser)
          realip ua ts).submitted = none) ∧
    (∀ lft rgt, store (tid ++ ":ballot:" ++ bid) = some (lft, rgt) → winner = loser →
      (ballot_save_fn (.ok (some topic)) now store (.Pairwise tid bid winner loser)
          realip ua ts).status = 400 ∧
      (ballot_save_fn (.ok (some topic)) now store (.Pairwise tid bid winner loser)
          realip ua ts).message = .BallotWinnerCannotBeLoser ∧
      (ballot_save_fn (.ok (some topic)) now store (.Pairwise tid bid winner loser)
          realip ua ts).submitted = none) ∧
    (∀ lft rgt, store (tid ++ ":ballot:" ++ bid) = some (lft, rgt) → winner ≠ loser →
      ¬ ((winner = lft ∨ winner = rgt) ∧ (loser = lft ∨ loser = rgt)) →
      (ballot_save_fn (.ok (some topic)) now store (.Pairwise tid bid winner loser)
          realip ua ts).status = 400 ∧
      (ballot_save_fn (.ok (some topic)) now store (.Pairwise tid bid winner loser)
          realip ua ts).message = .InvalidBallotCode "invalid winner or loser id" ∧
      (ballot_save_fn (.ok (some topic)) now store (.Pairwise tid bid winner loser)
          realip ua ts).submitted = none) := by
  have hmatch : topic.topic_type.matches_request (.Pairwise tid bid winner loser) = true := by
    rw [htype]
    rfl
  have hkey : (BallotSaveRequest.Pairwise tid bid winner loser).topic_id ++ ":ballot:" ++
      (BallotSaveRequest.Pairwise tid bid winner loser).ballot_id = tid ++ ":ballot:" ++ bid :=
    rfl
  refine ⟨?_, ?_, ?_⟩
  · intro habsent
    simp only [ballot_save_fn, hactive, hmatch, Bool.and_self, if_true, hkey, habsent]
    exact ⟨by trivial, by trivial, by trivial⟩
  · intro lft rgt hpresent heq
    simp only [ballot_save_fn, hactive, hmatch, Bool.and_self, if_true, hkey, hpresent,
      if_pos heq]
    exact ⟨by trivial, by trivial, by trivial⟩
  · intro lft rgt hpresent hne hnotin
    simp only [ballot_save_fn, hactive, hmatch, Bool.and_self, if_true, hkey, hpresent,
      if_neg hne, if_pos hnotin]
    exact ⟨by trivial, by trivial, by trivial⟩

/-- A concrete active pairwise topic used by witnesses. -/
def topicT : VotingTopicM :=
  { id := "T", topic_type := .Pairwise, open_time := 0, close_time := 100, is_active := true }

/-- Witness for C5: on the active pairwise topic `topicT` at `now = 50`
with an empty challenge store, a save request yields
`404 BallotNotFound` and submits nothing. -/
theorem ballot_save_error_cases_witness :
    (ballot_save_fn (.ok (some topicT)) 50 (fun _ => none) (.Pairwise "T" "b1" 1 2)
        "ip" "ua" 0).status = 404 ∧
    (ballot_save_fn (.ok (some topicT)) 50 (fun _ => none) (.Pairwise "T" "b1" 1 2)
        "ip" "ua" 0).message = .BallotNotFound ∧
    (ballot_save_fn (.ok (some topicT)) 50 (fun _ => none) (.Pairwise "T" "b1" 1 2)
        "ip" "ua" 0).submitted = none :=
  (ballot_save_error_cases topicT 50 (fun _ => none) "T" "b1" 1 2 "ip" "ua" 0
    (by decide) (by decide)).1 rfl

/-- Claim C10: when the challenge record exists but `winner = loser`, the
handler removes (consumes) the challenge from the ballot store before
performing the `winner == loser` check: the rejected request leaves the
store without the key, and a subsequent save with the same
`(topic_id, ballot_id)` and a valid winner/loser pair gets
`404 BallotNotFound` and submits nothing. -/
theorem ballot_save_consumes_challenge_before_winner_loser_check (topic : VotingTopicM)
    (now : Int) (store : String → Option (Int × Int)) (tid bid : String) (w : Int)
    (lft rgt : Int) (realip ua : String) (ts : Int)
    (hactive : topic.is_topic_active now = true)
    (htype : topic.topic_type = .Pairwise)
    (hpresent : store (tid ++ ":ballot:" ++ bid) = some (lft, rgt)) :
    (ballot_save_fn (.ok (some topic)) now store (.Pairwise tid bid w w)
        realip ua ts).status = 400 ∧
    (ballot_save_fn (.ok (some topic)) now store (.Pairwise tid bid w w)
        realip ua ts).message = .BallotWinnerCannotBeLoser ∧
    (ballot_save_fn (.ok (some topic)) now store (.Pairwise tid bid w w)
        realip ua ts).store (tid ++ ":ballot:" ++ bid) = none ∧
    (∀ winner loser : Int, winner ≠ loser →
      (winner = lft ∨ winner = rgt) → (loser = lft ∨ loser = rgt) →
      (ballot_save_fn (.ok (some topic)) now
          ((ballot_save_fn (.ok (some topic)) now store (.Pairwise tid bid w w)
            realip ua ts).store)
          (.Pairwise tid bid winner loser) realip ua ts).status = 404 ∧
      (ballot_save_fn (.ok (some topic)) now
          ((ballot_save_fn (.ok (some topic)) now store (.Pairwise tid bid w w)
            realip ua ts).store)
          (.Pairwise tid bid winner loser) realip ua ts).message = .BallotNotFound ∧
      (ballot_save_fn (.ok (some topic)) now
          ((ballot_save_fn (.ok (some topic)) now store (.Pairwise tid bid w w)
            realip ua ts).store)
          (.Pairwise tid bid winner loser) realip ua ts).submitted = none) := by
  have hmatch1 : topic.topic_type.matches_request (.Pairwise tid bid w w) = true := by
    rw [htype]
    rfl
  have hout1 : ballot_save_fn (.ok (some topic)) now store (.Pairwise tid bid w w)
      realip ua ts =
      ⟨400, .BallotWinnerCannotBeLoser,
        fun k => if k = tid ++ ":ballot:" ++ bid then none else store k, none⟩ := by
    simp only [ballot_save_fn, hactive, hmatch1, Bool.and_self, if_true]
    have hkey : (BallotSaveRequest.Pairwise tid bid w w).topic_id ++ ":ballot:" ++
        (BallotSaveRequest.Pairwise tid bid w w).ballot_id = tid ++ ":ballot:" ++ bid := rfl
    rw [hkey, hpresent]
  refine ⟨by rw [hout1], by rw [hout1], by rw [hout1]; simp, ?_⟩
  intro winner loser hne hwin hlose
  rw [hout1]
  have hmatch2 : topic.topic_type.matches_request (.Pairwise tid bid winner loser) = true := by
    rw [htype]
    rfl
  simp only [ballot_save_fn, hactive, hmatch2, Bool.and_self, if_true]
  have hkey2 : (BallotSaveRequest.Pairwise tid bid winner loser).topic_id ++ ":ballot:" ++
      (BallotSaveRequest.Pairwise tid bid winner loser).ballot_id = tid ++ ":ballot:" ++ bid :=
    rfl
  simp only [BallotSaveRequest.topic_id, BallotSaveRequest.ballot_id, if_true]
  exact ⟨by trivial, by trivial, by trivial⟩

/-- Witness for C10: concrete run on `topicT` with a stored challenge
`(1, 2)` for ballot `b1`; the first save uses `winner = loser = 1`, the
second uses the valid pair `(1, 2)` and gets `404 BallotNotFound`. -/
theorem ballot_save_consumes_challenge_witness :
    (ballot_save_fn (.ok (some topicT)) 50
        (fun k => if k = "T:ballot:b1" then some (1, 2) else none)
        (.Pairwise "T" "b1" 1 1) "ip" "ua" 0).status = 400 ∧
    (ballot_save_fn (.ok (some topicT)) 50
        (fun k => if k = "T:ballot:b1" then some (1, 2) else none)
        (.Pairwise "T" "b1" 1 1) "ip" "ua" 0).message = .BallotWinnerCannotBeLoser ∧
    (ballot_save_fn (.ok (some topicT)) 50
        (fun k => if k = "T:ballot:b1" then some (1, 2) else none)
        (.Pairwise "T" "b1" 1 1) "ip" "ua" 0).store "T:ballot:b1" = none := by
  have h := ballot_save_consumes_challenge_before_winner_loser_check topicT 50
    (fun k => if k = "T:ballot:b1" then some (1, 2) else none) "T" "b1" 1 1 2 "ip" "ua" 0
    (by decide) (by decide) (by decide)
  exact ⟨h.1, h.2.1, h.2.2.1⟩

/-! ### Candidate pool evaluation (claim C6)

Embedding of `CandidatePoolPreset` and `generate_pool` of
`share/src/models/candidate_pool_preset.rs` and of the `CharacterInfo`
matchers of `share/src/models/excel.rs`.  The Rust code collects `Union`
/ `Intersection` / `Difference` results through a `HashSet<i32>` whose
iteration order is arbitrary; the embedding returns a deduplicated list
in first-insertion order, which is set-equal to every possible Rust
output, and the claim is about set equality only. -/

/-- `RarityRank` of `excel.rs`. -/
inductive RarityRank where
  | Tier1 | Tier2 | Tier3 | Tier4 | Tier5 | Tier6 | ENum
deriving DecidableEq

/-- `RarityRank::to_numeric`. -/
def RarityRank.to_numeric : RarityRank → Int
  | .Tier1 => 1
  | .Tier2 => 2
  | .Tier3 => 3
  | .Tier4 => 4
  | .Tier5 => 5
  | .Tier6 => 6
  | .ENum => 0

/-- `ProfessionCategory` of `excel.rs`. -/
inductive ProfessionCategory where
  | NONE | WARRIOR | SNIPER | TANK | MEDIC | SUPPORT | CASTER | SPECIAL | TOKEN | TRAP
  | PIONEER
deriving DecidableEq

/-- `CharacterInfo` of `excel.rs`. -/
structure CharacterInfo where
  id : Int
  name : String
  rarity : RarityRank
  profession : ProfessionCategory
  sub_profession_id : String

/-- `CharacterInfo::matches_rarities`. -/
def CharacterInfo.matches_rarities (c : CharacterInfo) (rarities : List RarityRank) : Bool :=
  rarities.contains c.rarity

/-- `CharacterInfo::matches_professions`. -/
def CharacterInfo.matches_professions (c : CharacterInfo)
    (professions : List ProfessionCategory) : Bool :=
  professions.contains c.profession

/-- `CharacterInfo::matches_sub_professions`. -/
def CharacterInfo.matches_sub_professions (c : CharacterInfo)
    (sub_professions : List String) : Bool :=
  sub_professions.contains c.sub_profession_id

/-- `CharacterInfo::rarity_in_range`. -/
def CharacterInfo.rarity_in_range (c : CharacterInfo)
    (min max : Option RarityRank) : Bool :=
  let rarity_value := c.rarity.to_numeric
  (match min with
    | some min_rarity => decide (rarity_value ≥ min_rarity.to_numeric)
    | none => true) &&
  (match max with
    | some max_rarity => decide (rarity_value ≤ max_rarity.to_numeric)
    | none => true)

/-- `CandidatePoolPresetFilter`. -/
structure CandidatePoolPresetFilter where
  rarities : Option (List RarityRank)
  professions : Option (List ProfessionCategory)
  sub_professions : Option (List String)
  exclude_ids : Option (List Int)
  include_ids : Option (List Int)
  min_rarity : Option RarityRank
  max_rarity : Option RarityRank

/-- `CandidatePoolPreset`. -/
inductive CandidatePoolPreset where
  | all
  | custom (operator_ids : List Int)
  | byRarity (rarities : List RarityRank)
  | byProfession (professions : List ProfessionCategory)
  | bySubProfession (sub_professions : List String)
  | filter (f : CandidatePoolPresetFilter)
  | union (presets : List CandidatePoolPreset)
  | intersection (presets : List CandidatePoolPreset)
  | difference (base exclude : CandidatePoolPreset)

/-- Insertion into a `HashSet`-modelling list: a no-op when present. -/
def insertIfAbsent (acc : List Int) (x : Int) : List Int :=
  if x ∈ acc then acc else acc ++ [x]

/-- `HashSet::extend`: insert every element of `xs`. -/
def extendDedup (acc : List Int) (xs : List Int) : List Int :=
  xs.foldl insertIfAbsent acc

/-- The conjunctive predicate of the `Filter` arm of `generate_pool`. -/
def filterMatches (f : CandidatePoolPresetFilter) (c : CharacterInfo) : Bool :=
  (match f.rarities with
    | some rs => c.matches_rarities rs
    | none => true) &&
  (match f.professions with
    | some ps => c.matches_professions ps
    | none => true) &&
  (match f.sub_professions with
    | some ss => c.matches_sub_professions ss
    | none => true) &&
  c.rarity_in_range f.min_rarity f.max_rarity

mutual

/-- `CandidatePoolPreset::generate_pool`, arm by arm.  `Union` extends a
set across all children; `Intersection` of an empty list is the empty
pool, otherwise the first child's set intersected with each remaining
child; `Difference` filters the base set by non-membership in the
exclusion pool; the `Filter` arm applies `exclude_ids` after the
conjunctive filter and then appends the catalog-valid `include_ids` not
already present. -/
def generate_pool : CandidatePoolPreset → List CharacterInfo → List Int
  | .all, cs => cs.map (fun c => c.id)
  | .custom operator_ids, cs =>
    operator_ids.filter (fun i => decide (i ∈ cs.map (fun c => c.id)))
  | .byRarity rarities, cs =>
    (cs.filter (fun c => c.matches_rarities rarities)).map (fun c => c.id)
  | .byProfession professions, cs =>
    (cs.filter (fun c => c.matches_professions professions)).map (fun c => c.id)
  | .bySubProfession sub_professions, cs =>
    (cs.filter (fun c => c.matches_sub_professions sub_professions)).map (fun c => c.id)
  | .filter f, cs =>
    let filtered := (cs.filter (filterMatches f)).map (fun c => c.id)
    let afterExclude :=
      match f.exclude_ids with
      | some exclude_ids => filtered.filter (fun i => decide (i ∉ exclude_ids))
      | none => filtered
    match f.include_ids with
    | some include_ids =>
      afterExclude ++
        include_ids.filter (fun i =>
          decide (i ∈ cs.map (fun c => c.id)) && decide (i ∉ afterExclude))
    | none => afterExclude
  | .union presets, cs => union_pools presets cs []
  | .intersection presets, cs =>
    match presets with
    | [] => []
    | p :: rest => intersection_pools rest cs (extendDedup [] (generate_pool p cs))
  | .difference base exclude, cs =>
    (extendDedup [] (generate_pool base cs)).filter
      (fun x => decide (x ∉ generate_pool exclude cs))

/-- The `Union` loop: `result_set.extend(preset.generate_pool(...))`. -/
def union_pools : List CandidatePoolPreset → List CharacterInfo → List Int → List Int
  | [], _, acc => acc
  | p :: rest, cs, acc => union_pools rest cs (extendDedup acc (generate_pool p cs))

/-- The `Intersection` loop:
`result_set = result_set ∩ preset.generate_pool(...)`. -/
def intersection_pools :
    List CandidatePoolPreset → List CharacterInfo → List Int → List Int
  | [], _, acc => acc
  | p :: rest, cs, acc =>
    intersection_pools rest cs (acc.filter (fun x => decide (x ∈ generate_pool p cs)))

end

theorem mem_insertIfAbsent (acc : List Int) (x y : Int) :
    y ∈ insertIfAbsent acc x ↔ y ∈ acc ∨ y = x := by
  unfold insertIfAbsent
  split_ifs with h
  · constructor
    · exact fun hy => Or.inl hy
    · rintro (hy | rfl)
      · exact hy
      · exact h
  · simp

theorem mem_extendDedup (xs : List Int) (acc : List Int) (y : Int) :
    y ∈ extendDedup acc xs ↔ y ∈ acc ∨ y ∈ xs := by
  induction xs generalizing acc with
  | nil => simp [extendDedup]
  | cons x xs ih =>
    simp only [extendDedup, List.foldl_cons] at ih ⊢
    rw [ih, mem_insertIfAbsent]
    simp only [List.mem_cons]
    tauto

theorem mem_union_pools (ps : List CandidatePoolPreset) (cs : List CharacterInfo)
    (acc : List Int) (y : Int) :
    y ∈ union_pools ps cs acc ↔ y ∈ acc ∨ ∃ p ∈ ps, y ∈ generate_pool p cs := by
  induction ps generalizing acc with
  | nil => simp [union_pools]
  | cons p ps ih =>
    rw [union_pools, ih, mem_extendDedup]
    simp only [List.mem_cons]
    constructor
    · rintro ((hy | hy) | ⟨q, hq, hy⟩)
      · exact Or.inl hy
      · exact Or.inr ⟨p, Or.inl rfl, hy⟩
      · exact Or.inr ⟨q, Or.inr hq, hy⟩
    · rintro (hy | ⟨q, (rfl | hq), hy⟩)
      · exact Or.inl (Or.inl hy)
      · exact Or.inl (Or.inr hy)
      · exact Or.inr ⟨q, hq, hy⟩

theorem mem_intersection_pools (ps : List CandidatePoolPreset) (cs : List CharacterInfo)
    (acc : List Int) (y : Int) :
    y ∈ intersection_pools ps cs acc ↔ y ∈ acc ∧ ∀ p ∈ ps, y ∈ generate_pool p cs := by
  induction ps generalizing acc with
  | nil => simp [intersection_pools]
  | cons p ps ih =>
    rw [intersection_pools, ih]
    simp only [List.mem_filter, decide_eq_true_eq, List.mem_cons]
    constructor
    · rintro ⟨⟨hacc, hp⟩, hrest⟩
      refine ⟨hacc, ?_⟩
      rintro q (rfl | hq)
      · exact hp
      · exact hrest q hq
    · rintro ⟨hacc, hall⟩
      exact ⟨⟨hacc, hall p (Or.inl rfl)⟩, fun q hq => hall q (Or.inr hq)⟩

/-- Claim C6: for every character catalog and all pool expressions,
evaluating `Union` over a list of sub-expressions equals the set union
of their evaluations, evaluating `Intersection` equals the set
intersection of their evaluations with `Intersection []` equal to the
empty set, and evaluating `Difference base exclude` equals the
evaluation of `base` minus the evaluation of `exclude` — all as set
equality (membership equivalence) over the deduplicated lists the
evaluator returns. -/
theorem generate_pool_set_algebra (cs : List CharacterInfo) (x : Int) :
    (∀ ps : List CandidatePoolPreset,
      (x ∈ generate_pool (.union ps) cs ↔ ∃ p ∈ ps, x ∈ generate_pool p cs)) ∧
    (∀ ps : List CandidatePoolPreset,
      (x ∈ generate_pool (.intersection ps) cs ↔
        ps ≠ [] ∧ ∀ p ∈ ps, x ∈ generate_pool p cs)) ∧
    generate_pool (.intersection []) cs = [] ∧
    (∀ base exclude : CandidatePoolPreset,
      (x ∈ generate_pool (.difference base exclude) cs ↔
        x ∈ generate_pool base cs ∧ x ∉ generate_pool exclude cs)) := by
  refine ⟨?_, ?_, ?_, ?_⟩
  · intro ps
    rw [generate_pool, mem_union_pools]
    simp
  · intro ps
    cases ps with
    | nil => simp [generate_pool]
    | cons p rest =>
      rw [generate_pool]
      simp only [List.mem_cons, ne_eq, reduceCtorEq]
      rw [mem_intersection_pools, mem_extendDedup]
      simp only [List.not_mem_nil, false_or]
      constructor
      · rintro ⟨hp, hrest⟩
        refine ⟨by simp, ?_⟩
        rintro q (rfl | hq)
        · exact hp
        · exact hrest q hq
      · rintro ⟨-, hall⟩
        exact ⟨hall p (Or.inl rfl), fun q hq => hall q (Or.inr hq)⟩
  · rw [generate_pool]
  · intro base exclude
    rw [generate_pool]
    simp [List.mem_filter, mem_extendDedup]

/-! ### The DLQ pipeline (claim C7)

Embedding of `handle_failed_messages`
(`nats-service/src/consumer/save_score.rs`, lines 685-751) together with
`DLQ_MAX_RETRIES = 5` and `DLQ_RETRY_DELAY = 10 s`
(`nats-service/src/constants.rs`).  The effects (JetStream publish,
sleep, ack) are recorded as a list of actions in program order; the
success path of the publishes is modelled (on a publish failure the code
still acks). -/

/-- The standard base64 alphabet. -/
def base64Alphabet : List Char :=
  "ABCDEFGHIJKLMNOPQRSTUVWXYZabcdefghijklmnopqrstuvwxyz0123456789+/".data

/-- The base64 digit for a 6-bit value. -/
def b64c (n : Nat) : Char := base64Alphabet.getD n 'A'

/-- Standard base64 encoding (the `general_purpose::STANDARD` engine)
over a byte list, with `=` padding. -/
def base64Chars : List Nat → List Char
  | [] => []
  | [a] => [b64c (a / 4), b64c (a % 4 * 16), '=', '=']
  | [a, b] => [b64c (a / 4), b64c (a % 4 * 16 + b / 16), b64c (b % 16 * 4), '=']
  | a :: b :: c :: rest =>
    b64c (a / 4) :: b64c (a % 4 * 16 + b / 16) :: b64c (b % 16 * 4 + c / 64) ::
      b64c (c % 64) :: base64Chars rest

/-- Base64 encoding into a string. -/
def base64Encode (bytes : List Nat) : String := String.mk (base64Chars bytes)

/-- `DLQ_MAX_RETRIES`. -/
def DLQ_MAX_RETRIES : Nat := 5

/-- `DLQ_RETRY_DELAY`, in seconds. -/
def DLQ_RETRY_DELAY_SECS : Nat := 10

/-- A JetStream message as `handle_failed_messages` sees it: payload
bytes, subject, and optional headers. -/
structure NatsMessage where
  payload : List Nat
  subject : String
  headers : Option (List (String × String))

/-- `headers.get(name)`. -/
def headerGet (h : Option (List (String × String))) (k : String) : Option String :=
  h.bind (fun hs => hs.lookup k)

/-- `str::parse::<u32>` on the decimal numerals this system writes. -/
def parse_u32? (s : String) : Option Nat :=
  (parseNatDigits? s).bind (fun n => if n < 4294967296 then some n else none)

/-- `str::parse::<i64>` on the decimal numerals this system writes. -/
def parse_i64? (s : String) : Option Int :=
  (parseInt? s).bind
    (fun v =>
      if -9223372036854775808 ≤ v ∧ v ≤ 9223372036854775807 then some v else none)

/-- The `X-Retry-Count` header parsed with fallback 0. -/
def retry_count (msg : NatsMessage) : Nat :=
  ((headerGet msg.headers "X-Retry-Count").bind parse_u32?).getD 0

/-- The `X-First-error-Timestamp` header parsed with fallback `now`. -/
def first_error_timestamp (msg : NatsMessage) (now : Int) : Int :=
  ((headerGet msg.headers "X-First-error-Timestamp").bind parse_i64?).getD now

/-- `DeadLetterMessage` of `nats-service/src/consumer/dlq.rs`. -/
structure DeadLetterMessage where
  original_payload : String
  error_message : String
  retry_count : Nat
  first_error_timestamp : Int
  last_error_timestamp : Int
  subject : String
deriving DecidableEq

/-- One observable effect of the DLQ pipeline, in program order. -/
inductive DlqAction where
  | publish (subject : String) (dead_letter : DeadLetterMessage)
  | sleep (seconds : Nat)
  | republish (subject : String) (headers : List (String × String)) (payload : List Nat)
  | ack
deriving DecidableEq

/-- `handle_failed_messages`: promote to the DLQ subject after
`DLQ_MAX_RETRIES`, otherwise delay and republish with an incremented
`X-Retry-Count`, preserving the first-error timestamp; the original
message is acked in both branches. -/
def handle_failed_messages (msg : NatsMessage) (error_info : String) (now : Int) :
    List DlqAction :=
  let rc := retry_count msg
  let fts := first_error_timestamp msg now
  if rc ≥ DLQ_MAX_RETRIES then
    [.publish "ark-vote.dlq"
      { original_payload := base64Encode msg.payload
        error_message := "max retries exceeded. Last error: " ++ error_info
        retry_count := rc
        first_error_timestamp := fts
        last_error_timestamp := now
        subject := msg.subject },
    .ack]
  else
    [.sleep DLQ_RETRY_DELAY_SECS,
    .republish "ark-vote.save_score"
      [("X-Retry-Count", renderInt ((rc : Int) + 1)),
        ("X-First-error-Timestamp", renderInt fts),
        ("X-Last-error", error_info)]
      msg.payload,
    .ack]

/-- Claim C7: a message with `X-Retry-Count ≥ 5` is promoted — a
`DeadLetterMessage` carrying the base64-encoded original payload, the
retry count and the preserved first-error timestamp is published to the
dlq subject and the original is acked; otherwise, after a 10-second
delay, the message is republished with `X-Retry-Count := retry_count+1`
and the first-error timestamp unchanged, and the original is acked. -/
theorem handle_failed_messages_retry_ladder (msg : NatsMessage) (error_info : String)
    (now : Int) :
    (retry_count msg ≥ 5 →
      handle_failed_messages msg error_info now =
        [.publish "ark-vote.dlq"
          { original_payload := base64Encode msg.payload
            error_message := "max retries exceeded. Last error: " ++ error_info
            retry_count := retry_count msg
            first_error_timestamp := first_error_timestamp msg now
            last_error_timestamp := now
            subject := msg.subject },
        .ack]) ∧
    (retry_count msg < 5 →
      handle_failed_messages msg error_info now =
        [.sleep 10,
        .republish "ark-vote.save_score"
          [("X-Retry-Count", renderInt ((retry_count msg : Int) + 1)),
            ("X-First-error-Timestamp", renderInt (first_error_timestamp msg now)),
            ("X-Last-error", error_info)]
          msg.payload,
        .ack]) := by
  constructor
  · intro h
    rw [handle_failed_messages, if_pos (show retry_count msg ≥ DLQ_MAX_RETRIES from h)]
  · intro h
    rw [handle_failed_messages,
      if_neg (show ¬ retry_count msg ≥ DLQ_MAX_RETRIES from by unfold DLQ_MAX_RETRIES; omega)]
    rfl

/-- A message that already failed five times. -/
def msgFive : NatsMessage :=
  { payload := [104, 105], subject := "ark-vote.save_score",
    headers := some [("X-Retry-Count", "5"), ("X-First-error-Timestamp", "1700000000")] }

/-- Witness for C7: the concrete message `msgFive` (retry count 5) is
promoted to the dlq subject with its payload base64-encoded, retry count
5 and its stored first-error timestamp, then acked. -/
theorem handle_failed_messages_retry_ladder_witness :
    handle_failed_messages msgFive "redis error: down" 1700000123 =
      [.publish "ark-vote.dlq"
        { original_payload := base64Encode msgFive.payload
          error_message := "max retries exceeded. Last error: redis error: down"
          retry_count := retry_count msgFive
          first_error_timestamp := first_error_timestamp msgFive 1700000123
          last_error_timestamp := 1700000123
          subject := msgFive.subject },
      .ack] :=
  (handle_failed_messages_retry_ladder msgFive "redis error: down" 1700000123).1 (by decide)

/-! ### Consumer error taxonomy and routing (claim C8)

Embedding of `AppError::is_need_send_to_dlq`
(`nats-service/src/error.rs`, lines 37-46), of the single-message
fallback routing (`process_single_pairwise_fallback`), and of the batch
pathway of `process_save_score_messages` /
`process_pairwise_ballot_batch` (validation via the get-del-many script,
participant checks, and the handling of the returned
`failed_messages`). -/

/-- `AppError` of `nats-service/src/error.rs`; infrastructure variants
carry their message. -/
inductive AppError where
  | Redis (e : String)
  | Nats (e : String)
  | InvalidBallotCode (s : String)
  | InvalidBallotFormat (s : String)
  | InvalidParticipants
  | JetStream (e : String)
  | SerdeJson (e : String)
  | NatsConsumer (e : String)
  | NatsBatch (e : String)
  | NatsCreateStream (e : String)
  | MongoDB (e : String)
  | Io (e : String)
deriving DecidableEq

/-- `AppError::is_need_send_to_dlq`: negation of a match on the three
input-error variants. -/
def AppError.is_need_send_to_dlq : AppError → Bool
  | .InvalidParticipants => false
  | .InvalidBallotCode _ => false
  | .InvalidBallotFormat _ => false
  | _ => true

/-- What the consumer does with one message, in order. -/
inductive ConsumerAction where
  | to_dlq_pipeline (e : AppError)
  | ack
deriving DecidableEq

/-- The error branch of `process_single_pairwise_fallback`: consult
`is_need_send_to_dlq`, then ack either way. -/
def fallback_error_actions (e : AppError) : List ConsumerAction :=
  if e.is_need_send_to_dlq then [.to_dlq_pipeline e, .ack] else [.ack]

/-- How `process_save_score_messages` (lines 247-268) handles each entry
of `failed_messages`: `handle_failed_messages` is invoked with
`AppError::InvalidParticipants` and the message is then acked —
`is_need_send_to_dlq` is not consulted on this path. -/
def batch_failed_message_actions : List ConsumerAction :=
  [.to_dlq_pipeline .InvalidParticipants, .ack]

/-- A pairwise ballot as the batch validation sees it. -/
structure BallotItemM where
  topic_id : String
  ballot_id : String
  win : Int
  lose : Int

/-- `LUA_SCRIPT_GET_DEL_MANY`: for each key in order, `GET` it and `DEL`
it when present; returns the values and the store after the deletes. -/
def get_del_many (keys : List String) (store : String → Option String) :
    List (Option String) × (String → Option String) :=
  match keys with
  | [] => ([], store)
  | k :: rest =>
    let v := store k
    let store' := fun k' => if k' = k then none else store k'
    let next := get_del_many rest (if v.isSome then store' else store)
    (v :: next.1, next.2)

/-- Rust `split(',')` over the characters of a string. -/
def splitOnComma : List Char → List (List Char)
  | [] => [[]]
  | c :: cs =>
    let r := splitOnComma cs
    if c = ',' then [] :: r
    else
      match r with
      | [] => [[c]]
      | g :: gs => (c :: g) :: gs

/-- `str::parse::<i32>` over a character slice. -/
def parse_i32? (cs : List Char) : Option Int :=
  (parseInt? (String.mk cs)).bind
    (fun v => if -2147483648 ≤ v ∧ v ≤ 2147483647 then some v else none)

/-- `parse_ballot_info` of `validate_pairwise_ballots`: split the stored
value on `,`, expect exactly two integer parts. -/
def parse_ballot_info (s : String) : Except AppError (Int × Int) :=
  match splitOnComma s.data with
  | [l, r] =>
    match parse_i32? l with
    | none => .error (.InvalidBallotFormat "left part is not a valid integer")
    | some li =>
      match parse_i32? r with
      | none => .error (.InvalidBallotFormat "right part is not a valid integer")
      | some ri => .ok (li, ri)
  | _ => .error (.InvalidBallotFormat "expected format: left,right")

/-- `validate_pairwise_ballots`: get-and-delete every
`{topic_id}:ballot:{ballot_id}` key, then map each `ballot_id` to the
parse of its stored value, or `InvalidBallotCode` when the key was
absent (a `HashMap` built by collecting, so a later duplicate
`ballot_id` overwrites an earlier one).  Returns the map and the store
after the deletes. -/
def validate_pairwise_ballots (ballots : List BallotItemM)
    (store : String → Option String) :
    (String → Option (Except AppError (Int × Int))) × (String → Option String) :=
  let keys := ballots.map (fun b => b.topic_id ++ ":ballot:" ++ b.ballot_id)
  let gd := get_del_many keys store
  let results :=
    (ballots.zip gd.1).foldl
      (fun m (p : BallotItemM × Option String) =>
        fun k =>
          if k = p.1.ballot_id then
            some (match p.2 with
              | some info => parse_ballot_info info
              | none => .error (.InvalidBallotCode p.1.ballot_id))
          else m k)
      (fun _ => none)
  (results, gd.2)

/-- Outcome of one ballot inside `process_pairwise_ballot_batch`: either
it survives validation (later acked as successful) or it is pushed onto
`failed_messages`. -/
inductive ItemOutcome where
  | valid
  | failed
deriving DecidableEq

/-- The per-item classification of `process_pairwise_ballot_batch`
(steps 1 and 3): a ballot is valid when its challenge parsed and
`{win, lose} ⊆ {left, right}` with `win ≠ lose`; otherwise it joins
`failed_messages`. -/
def classify_item (results : String → Option (Except AppError (Int × Int)))
    (b : BallotItemM) : ItemOutcome :=
  match results b.ballot_id with
  | some (.ok (l, r)) =>
    if (b.win = l ∨ b.win = r) ∧ (b.lose = l ∨ b.lose = r) ∧ b.win ≠ b.lose then .valid
    else .failed
  | some (.error _) => .failed
  | none => .failed

/-- The concrete ballot of the counterexample: its challenge key is
absent from the store. -/
def staleBallot : BallotItemM :=
  { topic_id := "T", ballot_id := "b1", win := 101, lose := 102 }

/-- Counterexample to claim C8: in the batch pathway a ballot whose
challenge key is absent fails validation with `InvalidBallotCode` — an
error for which `is_need_send_to_dlq` is `false` — yet the consumer
routes it into the DLQ retry ladder (`handle_failed_messages` with
`InvalidParticipants`) instead of only acknowledging it. -/
theorem batch_path_routes_input_error_to_dlq_ladder :
    (validate_pairwise_ballots [staleBallot] (fun _ => none)).1 "b1" =
      some (.error (.InvalidBallotCode "b1")) ∧
    classify_item (validate_pairwise_ballots [staleBallot] (fun _ => none)).1 staleBallot =
      .failed ∧
    AppError.is_need_send_to_dlq (.InvalidBallotCode "b1") = false ∧
    batch_failed_message_actions =
      [.to_dlq_pipeline .InvalidParticipants, .ack] ∧
    batch_failed_message_actions ≠ [ConsumerAction.ack] := by
  refine ⟨rfl, rfl, rfl, rfl, ?_⟩
  decide

/-- Claim C8 as amended: `is_need_send_to_dlq` returns `false` exactly
for the three input-error variants; in the single-message fallback path
a message failing with such an error is only acknowledged; but in the
batch path every validation-failed ballot — including those failing
with these input errors — is routed into the DLQ retry ladder with error
`InvalidParticipants` and then acked. -/
theorem is_need_send_to_dlq_routing :
    (∀ e : AppError,
      e.is_need_send_to_dlq = false ↔
        (e = .InvalidParticipants ∨ (∃ s, e = .InvalidBallotCode s) ∨
          (∃ s, e = .InvalidBallotFormat s))) ∧
    (∀ e : AppError, e.is_need_send_to_dlq = false → fallback_error_actions e = [.ack]) ∧
    batch_failed_message_actions = [.to_dlq_pipeline .InvalidParticipants, .ack] := by
  refine ⟨?_, ?_, rfl⟩
  · intro e
    cases e <;> simp [AppError.is_need_send_to_dlq]
  · intro e he
    rw [fallback_error_actions, he]
    rfl

/-- Witness for the amended C8: a message failing with
`InvalidParticipants` is only acknowledged in the fallback path. -/
theorem is_need_send_to_dlq_routing_witness :
    fallback_error_actions .InvalidParticipants = [ConsumerAction.ack] :=
  is_need_send_to_dlq_routing.2.1 .InvalidParticipants (by decide)

/-- Witness for C6: the empty intersection over the empty catalog is the
empty pool. -/
theorem generate_pool_set_algebra_witness :
    generate_pool (.intersection []) [] = [] :=
  (generate_pool_set_algebra [] 0).2.2.1

/-- Witness for C9: one flushed update of topic `"T"` with winner 2 and
loser 1 raises `op_counter["T"][1:2]` from 0 by the count of updates on
that unordered pair. -/
theorem op_counter_counts_unordered_pairs_witness :
    (batch_record_1v1_go
        (record_1v1_args [{ topic_id := "T", win_id := 2, lose_id := 1, multiplier := 3 }])
        zeroAgg).1.opCounter "T" 1 2 =
      zeroAgg.opCounter "T" 1 2 +
        countPair "T" 1 2 [{ topic_id := "T", win_id := 2, lose_id := 1, multiplier := 3 }] :=
  (op_counter_counts_unordered_pairs
    [{ topic_id := "T", win_id := 2, lose_id := 1, multiplier := 3 }] zeroAgg "T" 1 2).2.2.1
